import Mathlib

/-!
Verification of the dotbot sync plugin (src/sync.py).

The plugin is embedded shallowly: filesystem, user database, subprocess and
path-expansion effects are oracles carried in an `Env` structure, and each
Python function becomes a pure Lean function over those oracles.  Machine
integers do not overflow in this program (modes and exit codes are small),
so `Nat`/`Int` are used directly.  Python exceptions that the code lets
escape are modelled with `Except PyError`.
-/

namespace DotbotSync

/-- Exceptions the Python code can raise and not catch: `KeyError` from
`pwd.getpwnam` / `grp.getgrnam`, and `ValueError` from tuple unpacking or
from `int(s, 8)`. -/
inductive PyError where
  | keyError : String → PyError
  | valueError : String → PyError
deriving DecidableEq

/-- The ambient operating-system state: every effectful call made by
src/sync.py becomes a field.  `run argv cwd` returns `some code` when the
subprocess exits with `code` and `none` when invocation raises. -/
structure Env where
  isWindows : Bool
  baseDirectory : String
  pwSelfName : String
  grSelfName : String
  loginName : String
  lookupUid : String → Option Int
  lookupGid : String → Option Int
  expandUser : String → String
  expandVars : String → String
  globExpand : String → List String
  parentOf : String → String
  pathExists : String → Bool
  mkdirOk : String → Nat → Bool
  chmodOk : String → Nat → Bool
  chownOk : String → Int → Int → Bool
  isDir : String → Bool
  run : List String → String → Option Int

/-- Python string truthiness for the strings this plugin tests:
a string is truthy exactly when it is nonempty. -/
def truthy (s : String) : Bool :=
  !s.data.isEmpty

/-- `path.replace('\\', '/')` from `_fix_windows_path_for_cwrsync`. -/
def replaceBackslashes (s : String) : String :=
  String.mk (s.data.map (fun c => if c = '\\' then '/' else c))

/-- `_fix_windows_path_for_cwrsync` (src/sync.py lines 13-32): on Windows,
normalize backslashes to forward slashes and rewrite a leading drive letter
`X:/rest` to `/cygdrive/x/rest`; on other platforms return the input
unchanged.  The regular expression `([A-Za-z]):/(.*)` is embedded as a
pattern match on the character list. -/
def fixWindowsPathForCwrsync (isWindows : Bool) (path : String) : String :=
  if isWindows then
    let p := replaceBackslashes path
    match p.data with
    | c :: d :: s :: rest =>
        if c.isAlpha ∧ d = ':' ∧ s = '/' then
          "/cygdrive/" ++ String.singleton c.toLower ++ "/" ++ String.mk rest
        else p
    | _ => p
  else path

/-- Python `s.endswith('/')`. -/
def endsWithSlash (s : String) : Bool :=
  s.data.getLast? == some '/'

/-- Python `s.startswith('/')`. -/
def startsWithSlash (s : String) : Bool :=
  s.data.head? == some '/'

/-- POSIX `os.path.join` for two components, as used on lines 177 and 199. -/
def pathJoin (a b : String) : String :=
  if startsWithSlash b then b
  else if a.data.isEmpty then b
  else if endsWithSlash a then a ++ b
  else a ++ "/" ++ b

/-- The little-endian decimal digits of a natural number (fuel-indexed so
that the recursion is structural; the fuel is always sufficient when it
starts at the number itself). -/
def decDigitsRevAux : Nat → Nat → List Nat
  | _, 0 => []
  | 0, _ + 1 => []
  | fuel + 1, n + 1 => (n + 1) % 10 :: decDigitsRevAux fuel ((n + 1) / 10)

/-- The little-endian decimal digits of a natural number, as produced by
Python string formatting read right to left. -/
def decDigitsRev (n : Nat) : List Nat := decDigitsRevAux n n

/-- Python string formatting of a nonnegative integer: its decimal
rendering, most significant digit first. -/
def decString (n : Nat) : String :=
  if n = 0 then "0"
  else String.mk ((decDigitsRev n).reverse.map (fun d => Char.ofNat (48 + d)))

/-- The fixed part of the rsync command (lines 186-196): the seven-element
list, with Python string truthiness `if (owner and group)` for the chown
flag, followed by the removal of empty strings. -/
def buildCmd (rsync owner group : String) (dmode fmode : Nat) : List String :=
  [rsync, "--update", "--recursive", "--owner", "--group",
   if truthy owner && truthy group then
     "--chown=" ++ owner ++ ":" ++ group
   else "",
   "--chmod=D" ++ decString dmode ++ ",F" ++ decString fmode].filter
    (fun c => truthy c)

/-- The absolute source path before normalization:
`os.path.join(self._context.base_directory(), source)` (lines 177, 199). -/
def originalSourceFull (env : Env) (source : String) : String :=
  pathJoin env.baseDirectory source

/-- The normalized source path handed to rsync (lines 177-203): join with
the base directory, apply the Windows rewrite, and append a trailing slash
when the original joined path is a directory and the path does not already
end with one. -/
def normalizeSourcePath (env : Env) (source : String) : String :=
  let sourceAbs := originalSourceFull env source
  let sourceAbs :=
    if env.isWindows then fixWindowsPathForCwrsync true sourceAbs else sourceAbs
  if env.isDir (originalSourceFull env source) && !(endsWithSlash sourceAbs) then
    sourceAbs ++ "/"
  else sourceAbs

/-- The destination path handed to rsync (lines 178-183):
`os.path.expanduser` then the Windows rewrite. -/
def normalizeDestPath (env : Env) (destination : String) : String :=
  let destAbs := env.expandUser destination
  if env.isWindows then fixWindowsPathForCwrsync true destAbs else destAbs

/-- `full_cmd = cmd + options + [source_abs, dest_abs]` (line 205). -/
def buildFullCmd (env : Env) (source destination : String) (dmode fmode : Nat)
    (owner group rsync : String) (options : List String) : List String :=
  buildCmd rsync owner group dmode fmode ++ options ++
    [normalizeSourcePath env source, normalizeDestPath env destination]

/-- A subprocess invocation: argument vector, working directory and the
null-redirection choices passed to `subprocess.run` (lines 209-215). -/
structure Invocation where
  argv : List String
  cwd : String
  stdoutNull : Bool
  stderrNull : Bool
deriving DecidableEq

/-- What one call of `Sync._sync` produces: the subprocess invocation it
issued, the boolean it returned, and the warnings it logged. -/
structure SyncResult where
  invocation : Invocation
  success : Bool
  warnings : List String
deriving DecidableEq

/-- `Sync._sync` (src/sync.py lines 168-229).  Builds the command, runs the
subprocess with the configuration base directory as working directory, and
converts the outcome to a boolean: `True` exactly on exit status zero, with
a warning logged on a nonzero status or on an exception; no exception
escapes. -/
def syncOp (env : Env) (source destination : String) (dmode fmode : Nat)
    (owner group rsync : String) (options : List String)
    (stdoutNull stderrNull : Bool) : SyncResult :=
  let fullCmd := buildFullCmd env source destination dmode fmode owner group rsync options
  let inv : Invocation :=
    { argv := fullCmd, cwd := env.baseDirectory,
      stdoutNull := stdoutNull, stderrNull := stderrNull }
  match env.run fullCmd env.baseDirectory with
  | some code =>
      if code ≠ 0 then
        { invocation := inv, success := false,
          warnings := ["Failed to sync, exit code " ++ toString code] }
      else
        { invocation := inv, success := true, warnings := [] }
  | none =>
      { invocation := inv, success := false,
        warnings := ["Failed to sync, exception"] }

/-- The `sync` defaults object from the host configuration: a dictionary in
which each field may be present or absent (`Option`). -/
structure Defaults where
  rsync : Option String := none
  options : Option (List String) := none
  create : Option Bool := none
  fmode : Option Nat := none
  dmode : Option Nat := none
  owner : Option String := none
  group : Option String := none
  stdout : Option Bool := none
  stderr : Option Bool := none
deriving DecidableEq

/-- The extended per-record specification dictionary (spec section 3): every
field optional except the required `path` expression.  Python `None` for the
group on Windows is represented by the empty string, which the code treats
identically (both are falsy in every use). -/
structure ExtSpec where
  create : Option Bool := none
  rsync : Option String := none
  options : Option (List String) := none
  fmode : Option Nat := none
  dmode : Option Nat := none
  owner : Option String := none
  group : Option String := none
  stdout : Option Bool := none
  stderr : Option Bool := none
  path : String
deriving DecidableEq

/-- A record value: either a bare source-path string or an extended
specification dictionary. -/
inductive SourceSpec where
  | bare : String → SourceSpec
  | extended : ExtSpec → SourceSpec
deriving DecidableEq

/-- The effective per-record configuration after the defaults/override
layering in `_process_records`.  `stdoutNull` / `stderrNull` record whether
the corresponding stream was redirected to the null device. -/
structure Effective where
  rsync : String
  options : List String
  create : Bool
  fmode : Nat
  dmode : Nat
  owner : String
  group : String
  stdoutNull : Bool
  stderrNull : Bool
  pathsExpression : String
deriving DecidableEq

/-- `pwd.getpwuid(os.getuid()).pw_name` on POSIX, `os.getlogin()` on
Windows (lines 85-91). -/
def defaultOwnerOf (env : Env) : String :=
  if env.isWindows then env.loginName else env.pwSelfName

/-- `grp.getgrgid(os.getgid()).gr_name` on POSIX, `None` (modelled as the
empty string) on Windows (lines 85-91). -/
def defaultGroupOf (env : Env) : String :=
  if env.isWindows then "" else env.grSelfName

/-- The defaults/override layering of `_process_records` (lines 78-116):
start from the defaults dictionary with the hard-coded fallbacks, then, when
the record is a dictionary, overlay each per-record field with `dict.get`.
Streams start as inherit (`None`); only the dictionary branch may open the
null device, and it does so exactly when the record field, falling back to
the defaults field, falling back to `True`, is `False`. -/
def resolveEffective (env : Env) (defaults : Defaults) (source : SourceSpec) :
    Effective :=
  let rsync := defaults.rsync.getD "rsync"
  let options := defaults.options.getD ["--delete", "--safe-links"]
  let create := defaults.create.getD false
  let fmode := defaults.fmode.getD 644
  let dmode := defaults.dmode.getD 755
  let owner := defaults.owner.getD (defaultOwnerOf env)
  let group := defaults.group.getD (defaultGroupOf env)
  match source with
  | .bare p =>
      { rsync := rsync, options := options, create := create, fmode := fmode,
        dmode := dmode, owner := owner, group := group,
        stdoutNull := false, stderrNull := false, pathsExpression := p }
  | .extended s =>
      { rsync := s.rsync.getD rsync, options := s.options.getD options,
        create := s.create.getD create, fmode := s.fmode.getD fmode,
        dmode := s.dmode.getD dmode, owner := s.owner.getD owner,
        group := s.group.getD group,
        stdoutNull := (s.stdout.getD (defaults.stdout.getD true)) == false,
        stderrNull := (s.stderr.getD (defaults.stderr.getD true)) == false,
        pathsExpression := s.path }

/-- `Sync.expand_path` (lines 49-53): `os.path.expanduser`, then
`os.path.expandvars`, then either the glob matches or the singleton list. -/
def expandPath (env : Env) (path : String) (globs : Bool) : List String :=
  let p := env.expandVars (env.expandUser path)
  if globs then env.globExpand p else [p]

/-- The tuple unpacking `(destination,) = self.expand_path(...)` on line 76:
a one-element list yields its element, any other length raises
`ValueError`. -/
def destructureSingle (l : List String) : Except PyError String :=
  match l with
  | [d] => .ok d
  | _ => .error (.valueError "expected exactly one path")

/-- `uid = pwd.getpwnam(owner).pw_uid if owner else -1` on POSIX, `-1` on
Windows (lines 118-124); a name absent from the database raises
`KeyError`. -/
def resolveUid (env : Env) (owner : String) : Except PyError Int :=
  if env.isWindows then .ok (-1)
  else if truthy owner then
    match env.lookupUid owner with
    | some u => .ok u
    | none => .error (.keyError owner)
  else .ok (-1)

/-- `gid = grp.getgrnam(group).gr_gid if group else -1` on POSIX, `-1` on
Windows (lines 118-124). -/
def resolveGid (env : Env) (group : String) : Except PyError Int :=
  if env.isWindows then .ok (-1)
  else if truthy group then
    match env.lookupGid group with
    | some g => .ok g
    | none => .error (.keyError group)
  else .ok (-1)

/-- The numeric value of an octal digit character, `none` otherwise. -/
def octVal (c : Char) : Option Nat :=
  if '0' ≤ c ∧ c ≤ '7' then some (c.toNat - 48) else none

/-- One step of the left-to-right octal parse: shift the accumulator and
add the digit, poisoning the result on a non-octal character. -/
def octStep (acc : Option Nat) (c : Char) : Option Nat :=
  match acc, octVal c with
  | some a, some v => some (a * 8 + v)
  | _, _ => none

/-- Python `int(s, 8)` on a plain digit string: fold the octal digits left
to right; an empty string or a non-octal digit raises `ValueError`,
modelled as `none`. -/
def parseOctal (s : String) : Option Nat :=
  if s.data.isEmpty then none
  else s.data.foldl octStep (some 0)

/-- `int('%s' % dmode, 8)` from line 128: render the mode decimally and
reparse the digit string as octal. -/
def octalReinterpret (n : Nat) : Option Nat :=
  parseOctal (decString n)

/-- `Sync._chmodown` (lines 55-68): attempt `os.chmod`, logging a warning
on failure; then, when not on Windows, attempt `os.chown`, logging a
warning on failure.  Both exceptions are caught, so the function always
returns, and the chown attempt is made whether or not chmod failed.  The
returned list is the warnings logged. -/
def chmodown (env : Env) (path : String) (chmod : Nat) (uid gid : Int) :
    List String :=
  (if env.chmodOk path chmod then []
   else ["Failed to chmod " ++ path]) ++
  (if env.isWindows then []
   else if env.chownOk path uid gid then []
   else ["Failed to chown " ++ path])

/-- `Sync._create` (lines 154-166): when the parent of `path` does not
exist, try `os.mkdir(parent, dmode)` followed by `_chmodown`; `mkdir`
failure is caught, logged and makes the result `False`.  `_chmodown` never
raises, so only the `mkdir` outcome decides the boolean.  Returns the
boolean and the warnings logged. -/
def createDir (env : Env) (path : String) (dmode : Nat) (uid gid : Int) :
    Bool × List String :=
  let parent := env.parentOf path
  if env.pathExists parent then (true, [])
  else if env.mkdirOk parent dmode then
    (true, chmodown env parent dmode uid gid)
  else (false, ["Failed to create directory " ++ parent])

/-- The per-record computations of `_process_records` that happen before
any boolean is accumulated (lines 74-128): destination unpacking, the
defaults/override layering, uid/gid resolution, and — only when `create`
is set — the decimal-as-octal reinterpretation of `dmode`.  Each step can
raise, aborting the whole run. -/
structure RecordPlan where
  dest : String
  eff : Effective
  uid : Int
  gid : Int
  createMode : Option Nat
deriving DecidableEq

/-- The `create` branch of the prelude: only when `create` is set is the
decimal-as-octal reinterpretation of `dmode` evaluated, and a non-octal
digit raises `ValueError` (line 128). -/
def createModeOf (create : Bool) (dmode : Nat) :
    Except PyError (Option Nat) :=
  if create then
    match octalReinterpret dmode with
    | some m => .ok (some m)
    | none => .error (.valueError "invalid octal literal")
  else .ok none

/-- See `RecordPlan`. -/
def recordPrelude (env : Env) (defaults : Defaults)
    (destination : String) (source : SourceSpec) :
    Except PyError RecordPlan :=
  match destructureSingle (expandPath env destination false) with
  | .error e => .error e
  | .ok dest =>
    let eff := resolveEffective env defaults source
    match resolveUid env eff.owner with
    | .error e => .error e
    | .ok uid =>
      match resolveGid env eff.group with
      | .error e => .error e
      | .ok gid =>
        match createModeOf eff.create eff.dmode with
        | .error e => .error e
        | .ok createMode =>
          .ok { dest := dest, eff := eff, uid := uid, gid := gid,
                createMode := createMode }

/-- One attempted operation whose boolean is folded into the aggregate
result: a parent-directory creation or one rsync invocation. -/
inductive Event where
  | create : String → Bool → Event
  | sync : Invocation → Bool → Event
deriving DecidableEq

/-- The boolean an event contributed to the aggregate. -/
def Event.ok : Event → Bool
  | .create _ b => b
  | .sync _ b => b

/-- The `_sync` attempt for one glob-expanded source path of a record,
as an `Event` (the invocation issued and the boolean returned). -/
def syncEvent (env : Env) (plan : RecordPlan) (p : String) : Event :=
  let r := syncOp env p plan.dest plan.eff.dmode plan.eff.fmode
    plan.eff.owner plan.eff.group plan.eff.rsync plan.eff.options
    plan.eff.stdoutNull plan.eff.stderrNull
  Event.sync r.invocation r.success

/-- The body of the `for destination, source in records.items()` loop after
the prelude (lines 126-140): fold the directory-creation boolean (when
`create` is set) and then one `_sync` boolean per glob-expanded source path
into the running `success` flag, recording each attempt as an `Event`. -/
def runRecord (env : Env) (plan : RecordPlan) (success : Bool) :
    Bool × List Event :=
  let start :=
    match plan.createMode with
    | some m =>
        let c := createDir env plan.dest m plan.uid plan.gid
        (success && c.1, [Event.create plan.dest c.1])
    | none => (success, [])
  let paths := expandPath env plan.eff.pathsExpression true
  paths.foldl
    (fun acc p => (acc.1 && (syncEvent env plan p).ok, acc.2 ++ [syncEvent env plan p]))
    start

/-- `Sync._process_records` (lines 70-152): iterate the records threading
the `success` accumulator, starting from `True`; any uncaught exception in
a record prelude aborts the remaining records.  Returns the aggregate
boolean together with the full list of attempted operations. -/
def processRecords (env : Env) (defaults : Defaults) :
    List (String × SourceSpec) → Bool → Except PyError (Bool × List Event)
  | [], success => .ok (success, [])
  | (destination, source) :: rest, success =>
      match recordPrelude env defaults destination source with
      | .error e => .error e
      | .ok plan =>
        let step := runRecord env plan success
        match processRecords env defaults rest step.1 with
        | .error e => .error e
        | .ok tail => .ok (tail.1, step.2 ++ tail.2)

/-- Every operation a run of `_process_records` would attempt, computed
without consulting any outcome: for each record, the optional
directory-creation attempt followed by one rsync invocation per
glob-expanded source path — all records and all paths, unconditionally. -/
def recordEvents (env : Env) (plan : RecordPlan) : List Event :=
  (match plan.createMode with
   | some m =>
       [Event.create plan.dest (createDir env plan.dest m plan.uid plan.gid).1]
   | none => []) ++
  (expandPath env plan.eff.pathsExpression true).map (syncEvent env plan)

/-- See `recordEvents`: the planned events of a whole run. -/
def plannedEvents (env : Env) (defaults : Defaults) :
    List (String × SourceSpec) → Except PyError (List Event)
  | [] => .ok []
  | (destination, source) :: rest =>
      match recordPrelude env defaults destination source with
      | .error e => .error e
      | .ok plan =>
        match plannedEvents env defaults rest with
        | .error e => .error e
        | .ok tail => .ok (recordEvents env plan ++ tail)

/-- A concrete POSIX environment used to evaluate the model on closed
inputs: user `alice` in group `staff`, trivial expansions, a glob that
matches two paths, and a subprocess that always exits 0. -/
def testEnv : Env where
  isWindows := false
  baseDirectory := "/base"
  pwSelfName := "alice"
  grSelfName := "staff"
  loginName := "alice"
  lookupUid := fun n => if n = "alice" then some 1000 else none
  lookupGid := fun n => if n = "staff" then some 50 else none
  expandUser := fun s => s
  expandVars := fun s => s
  globExpand := fun s => [s ++ "1", s ++ "2"]
  parentOf := fun s => s ++ "/.."
  pathExists := fun _ => false
  mkdirOk := fun _ _ => true
  chmodOk := fun _ _ => false
  chownOk := fun _ _ _ => false
  isDir := fun _ => false
  run := fun _ _ => some 0

/-- `testEnv` with every glob matching exactly its expression and every
subprocess exiting 1. -/
def smallEnv : Env :=
  { testEnv with
    baseDirectory := "/b",
    globExpand := fun s => [s],
    run := fun _ _ => some 1 }

/-- `testEnv` with a user database in which no name resolves. -/
def ghostEnv : Env :=
  { testEnv with lookupUid := fun _ => none }

/-- `testEnv` with a subprocess that raises on invocation. -/
def raiseEnv : Env :=
  { testEnv with run := fun _ _ => none }

/-- A defaults dictionary that only turns stdout visibility off. -/
def defaultsStdoutOff : Defaults := { stdout := some false }

/-- A defaults dictionary that only turns directory creation on. -/
def defaultsCreate : Defaults := { create := some true }

/-- `testEnv` with every path a directory. -/
def dirEnv : Env :=
  { testEnv with isDir := fun _ => true }

/-!  Theorems.  Helper lemmas come first, then one theorem per claim with
its witness or counterexample.  -/

/-- Appending to a nonempty string yields a nonempty string. -/
theorem append_ne_empty_left (a b : String) (h : a ≠ "") : a ++ b ≠ "" := by
  intro he
  apply h
  have hd := congrArg String.data he
  rw [String.data_append] at hd
  rcases List.append_eq_nil.mp hd with ⟨ha, _⟩
  exact String.ext ha

/-- Appending a slash makes a string end with a slash. -/
theorem endsWithSlash_append_slash (s : String) :
    endsWithSlash (s ++ "/") = true := by
  have : (s ++ "/").data = s.data ++ ['/'] := by
    rw [String.data_append]
  simp [endsWithSlash, this, List.getLast?_concat]

/-- Claim C4: on the Windows platform the path-normalization function first
replaces every backslash with a forward slash and then rewrites a path of
the form letter:/rest into /cygdrive/lowercased-letter/rest, so that the
input C:\Users\Name\Docs yields /cygdrive/c/Users/Name/Docs; on every other
platform it returns its input unchanged. -/
theorem windowsPathFix_spec :
    (∀ p, fixWindowsPathForCwrsync false p = p) ∧
    fixWindowsPathForCwrsync true "C:\\Users\\Name\\Docs" =
      "/cygdrive/c/Users/Name/Docs" ∧
    (∀ path c d s rest, (replaceBackslashes path).data = c :: d :: s :: rest →
      c.isAlpha = true → d = ':' → s = '/' →
      fixWindowsPathForCwrsync true path =
        "/cygdrive/" ++ String.singleton c.toLower ++ "/" ++ String.mk rest) := by
  refine ⟨fun p => rfl, by decide, ?_⟩
  intro path c d s rest h hA hd hs
  subst hd hs
  simp only [fixWindowsPathForCwrsync, if_true]
  rw [h]
  simp [hA]

/-- Witness for C4: the general drive-letter rewrite applied at a concrete
Windows path. -/
theorem windowsPathFix_spec_witness :
    fixWindowsPathForCwrsync true "D:/x" = "/cygdrive/d/x" := by
  have := windowsPathFix_spec.2.2 "D:/x" 'D' ':' '/' ['x'] (by decide)
    (by decide) rfl rfl
  simpa using this

/-- Claim C5: the destination unpacking raises a configuration error
exactly when the expanded list does not have exactly one element, and the
non-glob expansion used for destinations always produces exactly one
path, so processing of the record proceeds. -/
theorem destinationResolution_spec :
    (∀ (l : List String) (d : String), destructureSingle l = .ok d ↔ l = [d]) ∧
    (∀ l : List String, l.length ≠ 1 →
      destructureSingle l = .error (.valueError "expected exactly one path")) ∧
    (∀ env p, expandPath env p false = [env.expandVars (env.expandUser p)]) := by
  refine ⟨?_, ?_, fun env p => rfl⟩
  · intro l d
    match l with
    | [] => simp [destructureSingle]
    | [x] => simp [destructureSingle]
    | x :: y :: t => simp [destructureSingle]
  · intro l hl
    match l with
    | [] => rfl
    | [x] => simp at hl
    | x :: y :: t => rfl

/-- Witness for C5: the empty expansion raises, a two-element expansion
raises, a singleton succeeds. -/
theorem destinationResolution_spec_witness :
    destructureSingle [] = .error (.valueError "expected exactly one path") ∧
    destructureSingle ["a", "b"] =
      .error (.valueError "expected exactly one path") ∧
    destructureSingle ["a"] = .ok "a" :=
  ⟨destinationResolution_spec.2.1 [] (by decide),
   destinationResolution_spec.2.1 ["a", "b"] (by decide),
   (destinationResolution_spec.1 ["a"] "a").mpr rfl⟩

/-- Claim C7: when the original source path resolved against the base
directory is a directory, the normalized source path ends with a trailing
slash; when it is not, nothing is appended and the normalized path is just
the platform-rewritten join. -/
theorem trailingSlash_spec (env : Env) (source : String) :
    (env.isDir (originalSourceFull env source) = true →
      endsWithSlash (normalizeSourcePath env source) = true) ∧
    (env.isDir (originalSourceFull env source) = false →
      normalizeSourcePath env source =
        (if env.isWindows then
          fixWindowsPathForCwrsync true (originalSourceFull env source)
        else originalSourceFull env source)) := by
  constructor
  · intro hd
    by_cases he :
        endsWithSlash (if env.isWindows then
          fixWindowsPathForCwrsync true (originalSourceFull env source)
        else originalSourceFull env source) = true
    · simp [normalizeSourcePath, hd, he]
    · simp only [Bool.not_eq_true] at he
      simp [normalizeSourcePath, hd, he, endsWithSlash_append_slash]
  · intro hd
    simp [normalizeSourcePath, hd]

/-- Witness for C7: in an environment where every path is a directory the
normalized source ends with a slash; in one where none is, the join is
returned untouched. -/
theorem trailingSlash_spec_witness :
    endsWithSlash (normalizeSourcePath dirEnv "src") = true ∧
    normalizeSourcePath testEnv "src" = "/base/src" :=
  ⟨(trailingSlash_spec dirEnv "src").1 rfl,
   by
    have := (trailingSlash_spec testEnv "src").2 rfl
    simpa [testEnv] using this⟩

/-- Claim C6: the sync operation returns true exactly when the subprocess
exits with status zero; a nonzero status or an exception during invocation
yields false together with a logged warning, and the operation is a total
function — no exception propagates to the caller. -/
theorem syncSuccess_spec (env : Env) (source destination : String)
    (dmode fmode : Nat) (owner group rsync : String) (options : List String)
    (sout serr : Bool) :
    ((syncOp env source destination dmode fmode owner group rsync options
        sout serr).success = true ↔
      env.run (syncOp env source destination dmode fmode owner group rsync
        options sout serr).invocation.argv env.baseDirectory = some 0) ∧
    ((syncOp env source destination dmode fmode owner group rsync options
        sout serr).success = false →
      (syncOp env source destination dmode fmode owner group rsync options
        sout serr).warnings ≠ []) := by
  have harg : (syncOp env source destination dmode fmode owner group rsync
      options sout serr).invocation.argv =
      buildFullCmd env source destination dmode fmode owner group rsync
        options := by
    simp only [syncOp]
    split
    · split <;> rfl
    · rfl
  rw [harg]
  simp only [syncOp]
  cases h : env.run (buildFullCmd env source destination dmode fmode owner
      group rsync options) env.baseDirectory with
  | none => simp
  | some code =>
      by_cases hc : code = 0 <;> simp [hc]

/-- Witness for C6: with a subprocess that raises, the operation fails and
a warning is logged. -/
theorem syncSuccess_spec_witness :
    (syncOp raiseEnv "s" "d" 755 644 "alice" "staff" "rsync" [] false
      false).warnings ≠ [] :=
  (syncSuccess_spec raiseEnv "s" "d" 755 644 "alice" "staff" "rsync" []
    false false).2 rfl

/-- Claim C8: the directory creator returns true untouched when the parent
already exists; otherwise its boolean is exactly the mkdir outcome, so
chmod and chown failures never flip it; and on POSIX a chmod failure does
not prevent the chown attempt — with both failing, both warnings are
logged. -/
theorem createDir_spec (env : Env) (path : String) (dmode : Nat)
    (uid gid : Int) :
    (env.pathExists (env.parentOf path) = true →
      createDir env path dmode uid gid = (true, [])) ∧
    ((createDir env path dmode uid gid).1 =
      (env.pathExists (env.parentOf path) ||
        env.mkdirOk (env.parentOf path) dmode)) ∧
    (env.isWindows = false →
      env.chmodOk (env.parentOf path) dmode = false →
      env.chownOk (env.parentOf path) uid gid = false →
      chmodown env (env.parentOf path) dmode uid gid =
        ["Failed to chmod " ++ env.parentOf path,
         "Failed to chown " ++ env.parentOf path]) := by
  refine ⟨?_, ?_, ?_⟩
  · intro hp; simp [createDir, hp]
  · by_cases hp : env.pathExists (env.parentOf path) <;>
      by_cases hm : env.mkdirOk (env.parentOf path) dmode <;>
      simp [createDir, hp, hm]
  · intro hw hc ho
    simp [chmodown, hw, hc, ho]

/-- Witness for C8: in the concrete environment with a missing parent,
successful mkdir, and failing chmod and chown, the creator still returns
true and both warnings appear. -/
theorem createDir_spec_witness :
    createDir testEnv "/dest" 493 1000 50 = (true, []) ∨
    ((createDir testEnv "/dest" 493 1000 50).1 = true ∧
      chmodown testEnv ("/dest" ++ "/..") 493 1000 50 =
        ["Failed to chmod " ++ ("/dest" ++ "/.."),
         "Failed to chown " ++ ("/dest" ++ "/..")]) :=
  Or.inr ⟨(createDir_spec testEnv "/dest" 493 1000 50).2.1.trans rfl,
    (createDir_spec testEnv "/dest" 493 1000 50).2.2 rfl rfl rfl⟩

/-- Python truthiness of a string is exactly nonemptiness. -/
theorem truthy_iff (s : String) : truthy s = true ↔ s ≠ "" := by
  simp only [truthy, Bool.not_eq_true', List.isEmpty_eq_false]
  constructor
  · intro h he; subst he; exact h rfl
  · intro h hd; exact h (String.ext hd)

/-- A string with a truthy left part stays truthy under appending. -/
theorem truthy_append_left (a b : String) (h : truthy a = true) :
    truthy (a ++ b) = true :=
  (truthy_iff _).mpr (append_ne_empty_left a b ((truthy_iff a).mp h))

/-- The fixed command section, explicitly: when the tool string is
nonempty, filtering empties keeps the five constant flags and the tool,
keeps the chown flag exactly when owner and group are both nonempty, and
keeps the chmod flag. -/
theorem buildCmd_eq (rsync owner group : String) (dmode fmode : Nat)
    (hr : rsync ≠ "") :
    buildCmd rsync owner group dmode fmode =
      [rsync, "--update", "--recursive", "--owner", "--group"] ++
        (if owner ≠ "" ∧ group ≠ "" then
          ["--chown=" ++ owner ++ ":" ++ group]
        else []) ++
        ["--chmod=D" ++ decString dmode ++ ",F" ++ decString fmode] := by
  have hr' : truthy rsync = true := (truthy_iff rsync).mpr hr
  have hchmod : truthy ("--chmod=D" ++ decString dmode ++ ",F" ++
      decString fmode) = true :=
    truthy_append_left _ _ (truthy_append_left _ _ (truthy_append_left _ _ rfl))
  have hu : truthy "--update" = true := rfl
  have hrc : truthy "--recursive" = true := rfl
  have hgo : truthy "--owner" = true := rfl
  have hgg : truthy "--group" = true := rfl
  have hemp : truthy "" = false := rfl
  by_cases ho : owner = ""
  · subst ho
    simp [buildCmd, List.filter_cons, hr', hchmod, hu, hrc, hgo, hgg, hemp]
  · by_cases hg : group = ""
    · subst hg
      have ho' : truthy owner = true := (truthy_iff owner).mpr ho
      simp [buildCmd, List.filter_cons, hr', hchmod, hu, hrc, hgo, hgg, hemp,
        ho', ho]
    · have ho' : truthy owner = true := (truthy_iff owner).mpr ho
      have hg' : truthy group = true := (truthy_iff group).mpr hg
      have hchown : truthy ("--chown=" ++ owner ++ ":" ++ group) = true :=
        truthy_append_left _ _ (truthy_append_left _ _
          (truthy_append_left _ _ rfl))
      simp [buildCmd, List.filter_cons, hr', hchmod, hu, hrc, hgo, hgg,
        ho', hg', hchown, ho, hg]

/-- Claim C1 (amended): for every sync invocation whose configured tool
string is nonempty, the argument vector is exactly the tool, the four
constant flags, the chown flag exactly when owner and group are both
nonempty, the chmod flag, the extra options in order, the normalized
source path and the destination path; and the subprocess runs with the
configuration base directory as working directory. -/
theorem argv_spec (env : Env) (source destination : String)
    (dmode fmode : Nat) (owner group rsync : String) (options : List String)
    (sout serr : Bool) (hr : rsync ≠ "") :
    (syncOp env source destination dmode fmode owner group rsync options
        sout serr).invocation.argv =
      [rsync, "--update", "--recursive", "--owner", "--group"] ++
        (if owner ≠ "" ∧ group ≠ "" then
          ["--chown=" ++ owner ++ ":" ++ group]
        else []) ++
        ["--chmod=D" ++ decString dmode ++ ",F" ++ decString fmode] ++
        options ++
        [normalizeSourcePath env source, normalizeDestPath env destination] ∧
    (syncOp env source destination dmode fmode owner group rsync options
        sout serr).invocation.cwd = env.baseDirectory := by
  have hinv : (syncOp env source destination dmode fmode owner group rsync
      options sout serr).invocation =
      { argv := buildFullCmd env source destination dmode fmode owner group
          rsync options,
        cwd := env.baseDirectory, stdoutNull := sout, stderrNull := serr } := by
    simp only [syncOp]
    split
    · split <;> rfl
    · rfl
  rw [hinv]
  refine ⟨?_, rfl⟩
  show buildFullCmd env source destination dmode fmode owner group rsync
      options = _
  unfold buildFullCmd
  rw [buildCmd_eq rsync owner group dmode fmode hr]

/-- Witness for C1: the amended claim applied at a concrete invocation. -/
theorem argv_spec_witness :
    (syncOp testEnv "src" "/dest" 755 644 "alice" "staff" "rsync"
        ["--delete"] false false).invocation.argv =
      ["rsync", "--update", "--recursive", "--owner", "--group"] ++
        (if ("alice" : String) ≠ "" ∧ ("staff" : String) ≠ "" then
          ["--chown=" ++ "alice" ++ ":" ++ "staff"]
        else []) ++
        ["--chmod=D" ++ decString 755 ++ ",F" ++ decString 644] ++
        ["--delete"] ++
        [normalizeSourcePath testEnv "src", normalizeDestPath testEnv "/dest"] ∧
    (syncOp testEnv "src" "/dest" 755 644 "alice" "staff" "rsync"
        ["--delete"] false false).invocation.cwd = testEnv.baseDirectory :=
  argv_spec testEnv "src" "/dest" 755 644 "alice" "staff" "rsync"
    ["--delete"] false false (by decide)

/-- Counterexample to C1 as frozen: with an empty tool string the built
vector does not start with the tool — the empty string is removed by the
empty-entry filter, so the vector is not exactly the claimed one. -/
theorem argv_spec_counterexample :
    (syncOp testEnv "src" "/dest" 755 644 "alice" "staff" "" ["--delete"]
        false false).invocation.argv =
      ["--update", "--recursive", "--owner", "--group", "--chown=alice:staff",
       "--chmod=D755,F644", "--delete", "/base/src", "/dest"] ∧
    (syncOp testEnv "src" "/dest" 755 644 "alice" "staff" "" ["--delete"]
        false false).invocation.argv ≠
      ["", "--update", "--recursive", "--owner", "--group",
       "--chown=alice:staff", "--chmod=D755,F644", "--delete", "/base/src",
       "/dest"] := by
  constructor
  · rfl
  · decide

/-- Claim C2 (amended): for the fields create, rsync, options, fmode,
dmode, owner and group, the effective value is the per-record value when
the extended specification sets the field and the bare-record (defaults)
value when it leaves it unset; a bare-string record inherits all seven
fields from the defaults.  For stdout and stderr this layering holds for
extended-spec records (record value, else defaults value, else visible),
while a bare-string record never redirects either stream, whatever the
defaults say. -/
theorem effectiveConfig_spec (env : Env) (defaults : Defaults) (s : ExtSpec) :
    (resolveEffective env defaults (.extended s)).rsync =
      s.rsync.getD ((resolveEffective env defaults (.bare s.path)).rsync) ∧
    (resolveEffective env defaults (.extended s)).options =
      s.options.getD ((resolveEffective env defaults (.bare s.path)).options) ∧
    (resolveEffective env defaults (.extended s)).create =
      s.create.getD ((resolveEffective env defaults (.bare s.path)).create) ∧
    (resolveEffective env defaults (.extended s)).fmode =
      s.fmode.getD ((resolveEffective env defaults (.bare s.path)).fmode) ∧
    (resolveEffective env defaults (.extended s)).dmode =
      s.dmode.getD ((resolveEffective env defaults (.bare s.path)).dmode) ∧
    (resolveEffective env defaults (.extended s)).owner =
      s.owner.getD ((resolveEffective env defaults (.bare s.path)).owner) ∧
    (resolveEffective env defaults (.extended s)).group =
      s.group.getD ((resolveEffective env defaults (.bare s.path)).group) ∧
    (resolveEffective env defaults (.bare s.path)).rsync =
      defaults.rsync.getD "rsync" ∧
    (resolveEffective env defaults (.bare s.path)).options =
      defaults.options.getD ["--delete", "--safe-links"] ∧
    (resolveEffective env defaults (.bare s.path)).create =
      defaults.create.getD false ∧
    (resolveEffective env defaults (.bare s.path)).fmode =
      defaults.fmode.getD 644 ∧
    (resolveEffective env defaults (.bare s.path)).dmode =
      defaults.dmode.getD 755 ∧
    (resolveEffective env defaults (.bare s.path)).owner =
      defaults.owner.getD (defaultOwnerOf env) ∧
    (resolveEffective env defaults (.bare s.path)).group =
      defaults.group.getD (defaultGroupOf env) ∧
    (resolveEffective env defaults (.extended s)).stdoutNull =
      ((s.stdout.getD (defaults.stdout.getD true)) == false) ∧
    (resolveEffective env defaults (.extended s)).stderrNull =
      ((s.stderr.getD (defaults.stderr.getD true)) == false) ∧
    (resolveEffective env defaults (.bare s.path)).stdoutNull = false ∧
    (resolveEffective env defaults (.bare s.path)).stderrNull = false :=
  ⟨rfl, rfl, rfl, rfl, rfl, rfl, rfl, rfl, rfl, rfl, rfl, rfl, rfl, rfl,
   rfl, rfl, rfl, rfl⟩

/-- Counterexample to C2 as frozen: with defaults that set stdout to
False, an extended-spec record that leaves stdout unset inherits the
default and redirects, but a bare-string record under the same defaults
does not — the bare record does not inherit the stdout default. -/
theorem effectiveConfig_spec_counterexample :
    (resolveEffective testEnv defaultsStdoutOff
      (.extended { path := "p" })).stdoutNull = true ∧
    (resolveEffective testEnv defaultsStdoutOff (.bare "p")).stdoutNull =
      false :=
  ⟨rfl, rfl⟩

/-- The fuel-indexed renderer computes the decimal digits whenever the
fuel bounds the number. -/
theorem decDigitsRevAux_eq (fuel n : Nat) (h : n ≤ fuel) :
    decDigitsRevAux fuel n = Nat.digits 10 n := by
  induction fuel generalizing n with
  | zero =>
      rw [Nat.le_zero.mp h]
      simp [decDigitsRevAux]
  | succ fuel ih =>
      cases n with
      | zero => simp [decDigitsRevAux]
      | succ n =>
          have hle : (n + 1) / 10 ≤ fuel :=
            Nat.lt_succ_iff.mp
              (Nat.lt_of_lt_of_le (Nat.div_lt_self (Nat.succ_pos n)
                (by norm_num)) h)
          rw [decDigitsRevAux, ih _ hle,
            Nat.digits_def' (by norm_num : (1 : ℕ) < 10) (Nat.succ_pos n)]

/-- The renderer digits are the decimal digits. -/
theorem decDigitsRev_eq_digits (n : Nat) :
    decDigitsRev n = Nat.digits 10 n :=
  decDigitsRevAux_eq n n le_rfl

/-- An octal digit rendered as a character parses back to itself. -/
theorem octVal_chr {d : Nat} (hd : d < 8) :
    octVal (Char.ofNat (48 + d)) = some d := by
  interval_cases d <;> rfl

/-- Folding the octal parse step over rendered digits, most significant
first, computes the base-8 value of the digit list. -/
theorem foldl_octStep (L : List Nat) (a : Nat) (h : ∀ d ∈ L, d < 8) :
    (L.map (fun d => Char.ofNat (48 + d))).foldl octStep (some a) =
      some (a * 8 ^ L.length + Nat.ofDigits 8 L.reverse) := by
  induction L generalizing a with
  | nil => simp
  | cons d L ih =>
      have hd : d < 8 := h d (List.mem_cons_self d L)
      have hL : ∀ x ∈ L, x < 8 := fun x hx => h x (List.mem_cons_of_mem d hx)
      simp only [List.map_cons, List.foldl_cons]
      have hstep : octStep (some a) (Char.ofNat (48 + d)) = some (a * 8 + d) := by
        simp [octStep, octVal_chr hd]
      rw [hstep, ih _ hL]
      congr 1
      rw [List.reverse_cons, Nat.ofDigits_append]
      simp only [List.length_cons, List.length_reverse, Nat.ofDigits_singleton]
      ring

/-- `int(s, 8)` applied to the decimal rendering of `n` yields the base-8
value of the decimal digit list, whenever every digit is octal. -/
theorem parseOctal_decString (n : Nat)
    (h : ∀ d ∈ Nat.digits 10 n, d < 8) :
    parseOctal (decString n) = some (Nat.ofDigits 8 (Nat.digits 10 n)) := by
  by_cases h0 : n = 0
  · subst h0
    rw [Nat.digits_zero, Nat.ofDigits_nil]
    rfl
  · have hne : Nat.digits 10 n ≠ [] := Nat.digits_ne_nil_iff_ne_zero.mpr h0
    unfold decString
    rw [if_neg h0, decDigitsRev_eq_digits]
    unfold parseOctal
    have hdata : (String.mk ((Nat.digits 10 n).reverse.map
        (fun d => Char.ofNat (48 + d)))).data =
        (Nat.digits 10 n).reverse.map (fun d => Char.ofNat (48 + d)) := rfl
    rw [hdata, if_neg (by simp [hne])]
    have hrev : ∀ d ∈ (Nat.digits 10 n).reverse, d < 8 := by
      intro d hd
      exact h d (List.mem_reverse.mp hd)
    rw [foldl_octStep _ 0 hrev]
    simp

/-- Claim C9: when a record with `create` set reaches directory creation,
the mode handed to mkdir is the decimal rendering of `dmode` reparsed as
octal — the base-8 value of its decimal digits — provided every digit is
octal; in particular 755 becomes 493, which is octal 755. -/
theorem dmodeOctal_spec (env : Env) (defaults : Defaults)
    (destination : String) (source : SourceSpec) (u g : Int)
    (hu : resolveUid env (resolveEffective env defaults source).owner = .ok u)
    (hg : resolveGid env (resolveEffective env defaults source).group = .ok g)
    (hc : (resolveEffective env defaults source).create = true)
    (hd : ∀ d ∈ Nat.digits 10 (resolveEffective env defaults source).dmode,
      d < 8) :
    recordPrelude env defaults destination source =
      .ok { dest := env.expandVars (env.expandUser destination),
            eff := resolveEffective env defaults source,
            uid := u, gid := g,
            createMode := some (Nat.ofDigits 8 (Nat.digits 10
              (resolveEffective env defaults source).dmode)) } ∧
    octalReinterpret 755 = some 493 := by
  constructor
  · have hoct : createModeOf (resolveEffective env defaults source).create
        (resolveEffective env defaults source).dmode =
        .ok (some (Nat.ofDigits 8 (Nat.digits 10
          (resolveEffective env defaults source).dmode))) := by
      rw [hc]
      unfold createModeOf
      rw [if_pos rfl]
      unfold octalReinterpret
      rw [parseOctal_decString _ hd]
    simp only [recordPrelude, expandPath, destructureSingle]
    rw [hu, hg, hoct]
    rfl
  · rfl

/-- Witness for C9: a concrete record with creation on and the default
dmode 755 plans mkdir mode 493. -/
theorem dmodeOctal_spec_witness :
    recordPrelude testEnv defaultsCreate "/dest" (.bare "s") =
      .ok { dest := testEnv.expandVars (testEnv.expandUser "/dest"),
            eff := resolveEffective testEnv defaultsCreate (.bare "s"),
            uid := 1000, gid := 50,
            createMode := some (Nat.ofDigits 8 (Nat.digits 10
              (resolveEffective testEnv defaultsCreate (.bare "s")).dmode)) } ∧
    octalReinterpret 755 = some 493 :=
  dmodeOctal_spec testEnv defaultsCreate "/dest" (.bare "s") 1000 50 rfl rfl
    rfl
    (by
      rw [show Nat.digits 10
          (resolveEffective testEnv defaultsCreate (.bare "s")).dmode =
          [5, 5, 7] from by rw [← decDigitsRev_eq_digits]; rfl]
      decide)

/-- Folding the per-path sync step accumulates the AND of the sync
booleans and appends one event per path — every path contributes,
whatever the booleans are. -/
theorem foldl_syncEvents (env : Env) (plan : RecordPlan)
    (paths : List String) (b : Bool) (evs : List Event) :
    paths.foldl
      (fun acc p =>
        (acc.1 && (syncEvent env plan p).ok, acc.2 ++ [syncEvent env plan p]))
      (b, evs) =
      (b && (paths.map (syncEvent env plan)).all Event.ok,
       evs ++ paths.map (syncEvent env plan)) := by
  induction paths generalizing b evs with
  | nil => simp
  | cons p ps ih =>
      simp only [List.foldl_cons, List.map_cons, List.all_cons]
      rw [ih]
      simp [Bool.and_assoc]

/-- One record loop body: the running flag is ANDed with the booleans of
exactly the planned events of the record, and those events are emitted. -/
theorem runRecord_eq (env : Env) (plan : RecordPlan) (success : Bool) :
    runRecord env plan success =
      (success && (recordEvents env plan).all Event.ok,
       recordEvents env plan) := by
  unfold runRecord recordEvents
  cases hcm : plan.createMode with
  | none =>
      rw [foldl_syncEvents]
      simp
  | some m =>
      rw [foldl_syncEvents]
      simp [Event.ok, Bool.and_assoc]

/-- When the processor returns, its boolean is the running flag ANDed with
all event booleans, and the events are exactly the planned ones. -/
theorem processRecords_ok (env : Env) (defaults : Defaults)
    (records : List (String × SourceSpec)) :
    ∀ (success b : Bool) (evs : List Event),
      processRecords env defaults records success = .ok (b, evs) →
      plannedEvents env defaults records = .ok evs ∧
      b = (success && evs.all Event.ok) := by
  induction records with
  | nil =>
      intro success b evs h
      simp only [processRecords, Except.ok.injEq, Prod.mk.injEq] at h
      obtain ⟨rfl, rfl⟩ := h
      simp [plannedEvents]
  | cons r rest ih =>
      obtain ⟨destination, source⟩ := r
      intro success b evs h
      simp only [processRecords] at h
      cases hp : recordPrelude env defaults destination source with
      | error e => rw [hp] at h; simp at h
      | ok plan =>
          rw [hp] at h
          dsimp only at h
          rw [runRecord_eq] at h
          dsimp only at h
          cases ht : processRecords env defaults rest
              (success && (recordEvents env plan).all Event.ok) with
          | error e => rw [ht] at h; simp at h
          | ok tail =>
              rw [ht] at h
              obtain ⟨tb, tevs⟩ := tail
              simp only [Except.ok.injEq, Prod.mk.injEq] at h
              obtain ⟨rfl, rfl⟩ := h
              obtain ⟨hplanned, hb⟩ := ih _ _ _ ht
              constructor
              · simp only [plannedEvents]
                rw [hp, hplanned]
              · rw [hb]
                simp [List.all_append, Bool.and_assoc]

/-- Claim C3: whenever the record processor returns a boolean (no
exception aborts it), that boolean is the logical AND of the success
booleans of all attempted operations — the optional directory creation
and one sync invocation per glob-expanded source path, for every record —
and the attempted operations are exactly the planned ones, so no
failure prevents the remaining paths or records from being attempted. -/
theorem aggregateResult_spec (env : Env) (defaults : Defaults)
    (records : List (String × SourceSpec)) (b : Bool) (evs : List Event)
    (h : processRecords env defaults records true = .ok (b, evs)) :
    b = evs.all Event.ok ∧
    plannedEvents env defaults records = .ok evs := by
  obtain ⟨hp, hb⟩ := processRecords_ok env defaults records true b evs h
  exact ⟨by rw [hb]; simp, hp⟩

/-- Witness for C3: a concrete run in which the only sync invocation
fails; the aggregate is false and the planned event list is returned. -/
theorem aggregateResult_spec_witness :
    (false : Bool) = ([Event.sync
        { argv := ["rsync", "--update", "--recursive", "--owner", "--group",
                   "--chown=alice:staff", "--chmod=D755,F644", "--delete",
                   "--safe-links", "/b/s", "d"],
          cwd := "/b", stdoutNull := false, stderrNull := false }
        false].all Event.ok) ∧
    plannedEvents smallEnv {} [("d", SourceSpec.bare "s")] =
      .ok [Event.sync
        { argv := ["rsync", "--update", "--recursive", "--owner", "--group",
                   "--chown=alice:staff", "--chmod=D755,F644", "--delete",
                   "--safe-links", "/b/s", "d"],
          cwd := "/b", stdoutNull := false, stderrNull := false }
        false] :=
  aggregateResult_spec smallEnv {} [("d", SourceSpec.bare "s")] false
    [Event.sync
      { argv := ["rsync", "--update", "--recursive", "--owner", "--group",
                 "--chown=alice:staff", "--chmod=D755,F644", "--delete",
                 "--safe-links", "/b/s", "d"],
        cwd := "/b", stdoutNull := false, stderrNull := false }
      false] rfl

/-- Claim C10: on a POSIX system, a configuration whose owner name is not
in the user database makes the record processor raise an uncaught
KeyError from name-to-uid resolution: the run aborts with the exception,
returns no boolean, and the remaining records — whatever they are — are
not processed. -/
theorem missingOwnerAborts_spec (rest : List (String × SourceSpec)) :
    ghostEnv.isWindows = false ∧
    ghostEnv.lookupUid "alice" = none ∧
    processRecords ghostEnv {} (("/d1", SourceSpec.bare "a") :: rest) true =
      .error (.keyError "alice") :=
  ⟨rfl, rfl, rfl⟩

/-- Witness for C10: the abort with a concrete second record present. -/
theorem missingOwnerAborts_spec_witness :
    processRecords ghostEnv {}
      [("/d1", SourceSpec.bare "a"), ("/d2", SourceSpec.bare "b")] true =
      .error (.keyError "alice") :=
  (missingOwnerAborts_spec [("/d2", SourceSpec.bare "b")]).2.2

end DotbotSync
